import Mathlib

/-!
Shallow embedding of the pipeline core of `src/rwanda_transport_sentiment.py`:
the language detector, the sentiment analyzer, the three collector variants
(Reddit, RSS, news scraper) and the orchestrator, together with theorems about
the spec claims.  External effects (Reddit search, feed parsing, HTTP fetches,
the two lexical scorers) are abstracted as explicit function parameters whose
failures are `Except.error`, mirroring the exceptions the Python code catches.
Continuous scores and timestamps are rationals; concrete rationals are written
with `mkRat` so that statements evaluate by kernel reduction.
-/

/-- Python default whitespace for `str.split` and `str.strip`:
space, tab, newline, carriage return, vertical tab, form feed. -/
def pyIsSpace (c : Char) : Bool :=
  c = ' ' || c = '\t' || c = '\n' || c = '\r' || c = '\x0b' || c = '\x0c'

/-- Python `str.strip()` with no arguments: drop leading and trailing
whitespace. -/
def pyStrip (s : String) : String :=
  ⟨((s.data.dropWhile pyIsSpace).reverse.dropWhile pyIsSpace).reverse⟩

/-- Helper for `pyWords`: scan the character list, accumulating the current
word (reversed) and emitting it at each whitespace run. -/
def pyWordsAux : List Char → List Char → List String
  | [], acc => if acc.isEmpty then [] else [String.mk acc.reverse]
  | c :: cs, acc =>
    if pyIsSpace c then
      if acc.isEmpty then pyWordsAux cs [] else String.mk acc.reverse :: pyWordsAux cs []
    else pyWordsAux cs (c :: acc)

/-- Python `text.lower().split()`: lower-case (ASCII, which covers every
keyword the detector tests) and split on whitespace runs, dropping empties. -/
def pyWords (t : String) : List String :=
  pyWordsAux (t.data.map Char.toLower) []

/-- Python `text[:n]` on a string: the first `n` characters. -/
def pyTake (s : String) (n : ℕ) : String := ⟨s.data.take n⟩

namespace LanguageDetector

/-- `LanguageDetector.RW_WORDS` from the source. -/
def RW_WORDS : List String := ["ubus", "ikintu", "kuri", "ndishimye", "cyane", "mwiza"]

/-- `LanguageDetector.FR_WORDS` from the source. -/
def FR_WORDS : List String := ["le", "la", "les", "un", "une", "des", "est", "sont"]

/-- `LanguageDetector.detect`: the word set of the lower-cased text (modelled
as a deduplicated list), `rw` on any Kinyarwanda hit, `fr` on at least two
distinct French hits, else `en`. -/
def detect (text : String) : String :=
  if (pyWords text).dedup ∩ RW_WORDS ≠ [] then "rw"
  else if 2 ≤ ((pyWords text).dedup ∩ FR_WORDS).length then "fr"
  else "en"

end LanguageDetector

/-- The canonical record shape every collector emits: the dict keys
`source, id, text, date, url, title, username, user_location, language`
plus the `sentiment` key that only `batch_analyze` adds (`none` before).
`text` is optional so that a missing `text` key (which `batch_analyze`
reads with an empty-string default) is representable; every collector sets it. -/
structure Record where
  source : String
  id : String
  text : Option String
  date : ℚ
  url : String
  title : String
  username : String
  user_location : String
  language : String
  sentiment : Option String
deriving DecidableEq

/-- The dedup key `(source, external_id)` of a record. -/
def recKey (r : Record) : String × String := (r.source, r.id)

namespace RedditCollector

/-- A Reddit comment as the collector reads it: `id`, `body`, `created_utc`,
`author` (already rendered to a string, as `str(c.author)` does). -/
structure Comment where
  id : String
  body : String
  created_utc : ℚ
  author : String
deriving DecidableEq

/-- A Reddit submission as the collector reads it, with its flattened comment
list (`sub.comments.list()` after `replace_more(limit=0)`). `selftext` is
optional, mirroring the `or`-guarded selftext read. -/
structure Post where
  id : String
  title : String
  selftext : Option String
  created_utc : ℚ
  permalink : String
  author : String
  comments : List Comment
deriving DecidableEq

/-- `RedditCollector.KEYWORDS` from the source. -/
def KEYWORDS : List String :=
  ["Rwanda transport", "Kigali bus", "RURA transport",
   "distance fare Rwanda", "Rwanda public transport",
   "Kigali fare", "Rwanda bus fare"]

/-- `RedditCollector._record`: builds one canonical record dict. -/
def record (source rid text : String) (date : ℚ) (url username : String) : Record :=
  { source := source, id := rid, text := some text, date := date, url := url,
    title := pyTake text 80, username := username, user_location := "N/A",
    language := LanguageDetector.detect text, sentiment := none }

/-- The comments kept for one post: the first 10 of the flattened list,
dropping empty and `[deleted]` bodies. -/
def keptComments (sub : Post) : List Comment :=
  (sub.comments.take 10).filter (fun c => !(c.body == "" || c.body == "[deleted]"))

/-- The loop body for one search result: skip the post unless
`start_ts <= sub.created_utc <= end_ts`, otherwise emit the post record
followed by its kept comment records. -/
def processPost (s e : ℚ) (sub : Post) : List Record :=
  if s ≤ sub.created_utc ∧ sub.created_utc ≤ e then
    record "reddit" sub.id (pyStrip (sub.title ++ ". " ++ sub.selftext.getD ""))
        sub.created_utc ("https://reddit.com" ++ sub.permalink) sub.author
      :: (keptComments sub).map (fun c =>
           record "reddit_comment" c.id c.body c.created_utc
             ("https://reddit.com" ++ sub.permalink) c.author)
  else []

/-- One keyword search with its own `try`: a failing search contributes
nothing; a successful one appends the processed posts in order. -/
def perKeyword (search : String → ℕ → Except Unit (List Post))
    (s e : ℚ) (max_posts : ℕ) (kw : String) : List Record :=
  match search kw max_posts with
  | .error _ => []
  | .ok subs => subs.foldl (fun acc sub => acc ++ processPost s e sub) []

/-- `RedditCollector.collect`. `creds = none` models `_get_client` raising
`ValueError` on missing credentials, which the outer handler catches so the
variant returns the empty accumulator. -/
def collect (creds : Option Unit) (search : String → ℕ → Except Unit (List Post))
    (start_date end_date : ℚ) (max_posts : ℕ) : List Record :=
  match creds with
  | none => []
  | some _ => KEYWORDS.foldl (fun acc kw => acc ++ perKeyword search start_date end_date max_posts kw) []

end RedditCollector

namespace RSSCollector

/-- A parsed feed entry: the fields `_parse` reads via `entry.get`, with
`pubDate` standing for the date `_date` extracts from `published`/`updated`
(`none` when missing or unparseable). -/
structure Entry where
  title : Option String
  summary : Option String
  link : Option String
  author : Option String
  pubDate : Option ℚ
deriving DecidableEq

/-- `RSSCollector.KEYWORDS` from the source. -/
def KEYWORDS : List String :=
  ["Rwanda transport fare", "Kigali bus fare",
   "RURA Rwanda transport", "Rwanda public transport"]

/-- `RSSCollector.DIRECT_FEEDS` from the source. -/
def DIRECT_FEEDS : List String :=
  ["https://www.newtimes.co.rw/rss.xml", "https://www.ktpress.rw/feed/"]

/-- Upper-case hexadecimal digit, for percent-encoding. -/
def hexDigit (n : ℕ) : Char := if n < 10 then Char.ofNat (48 + n) else Char.ofNat (55 + n)

/-- `urllib.parse.quote_plus` on one character (ASCII inputs, which covers
every fixed keyword): space becomes `+`, always-safe characters stay, the
rest are percent-encoded. -/
def quotePlusChar (c : Char) : List Char :=
  if c = ' ' then ['+']
  else if c.isAlphanum || c = '_' || c = '.' || c = '-' || c = '~' then [c]
  else ['%', hexDigit (c.toNat / 16 % 16), hexDigit (c.toNat % 16)]

/-- `urllib.parse.quote_plus` over a whole (ASCII) string. -/
def quote_plus (s : String) : String := ⟨s.data.flatMap quotePlusChar⟩

/-- The Google News search URL built in `RSSCollector.collect` for one
keyword. -/
def searchUrl (kw : String) : String :=
  "https://news.google.com/rss/search?q=" ++ quote_plus kw ++ "&hl=en-RW&gl=RW&ceid=RW:en"

/-- One canonical record for one feed entry, with the endpoint `url` as the
fallback link and `now` as the fallback date. -/
def entryRecord (now : ℚ) (url : String) (en : Entry) : Record :=
  let title := en.title.getD "No title"
  let link := en.link.getD url
  let text := pyStrip (title ++ ". " ++ en.summary.getD "")
  { source := "rss", id := link, text := some text, date := en.pubDate.getD now,
    url := link, title := title, username := en.author.getD "N/A",
    user_location := "N/A", language := LanguageDetector.detect text, sentiment := none }

/-- The `continue` condition of `_parse`: `pub and not (start <= pub <= end)`.
Undated entries are never skipped. -/
def skipEntry (s e : ℚ) (en : Entry) : Bool :=
  match en.pubDate with
  | some p => !(decide (s ≤ p) && decide (p ≤ e))
  | none => false

/-- The entry loop of `_parse` on an already fetched feed: iterate the first
`max_items` entries, skipping out-of-window dated entries. -/
def parseEntries (now : ℚ) (url : String) (entries : List Entry) (max_items : ℕ)
    (s e : ℚ) : List Record :=
  (entries.take max_items).foldl
    (fun out en => if skipEntry s e en then out else out ++ [entryRecord now url en]) []

/-- `RSSCollector._parse`: a failing fetch/parse of one endpoint yields
nothing (the handler returns the accumulator). -/
def parse (feedOf : String → Except Unit (List Entry)) (now : ℚ) (url : String)
    (max_items : ℕ) (s e : ℚ) : List Record :=
  match feedOf url with
  | .error _ => []
  | .ok entries => parseEntries now url entries max_items s e

/-- `RSSCollector.collect`: one Google News search endpoint per keyword, then
the direct feeds, concatenating in order. -/
def collect (feedOf : String → Except Unit (List Entry)) (now start_date end_date : ℚ)
    (max_items : ℕ) : List Record :=
  let a1 := KEYWORDS.foldl
    (fun acc kw => acc ++ parse feedOf now (searchUrl kw) max_items start_date end_date) []
  DIRECT_FEEDS.foldl
    (fun acc url => acc ++ parse feedOf now url max_items start_date end_date) a1

end RSSCollector

namespace NewsScraper

/-- One `article` block of a fetched search page: its `h2` text (if any) and
its first link `href` (if any). -/
structure Article where
  h2 : Option String
  href : Option String
deriving DecidableEq

/-- `NewsScraper.URLS` from the source. -/
def URLS : List String :=
  ["https://www.newtimes.co.rw/search/node/transport",
   "https://www.ktpress.rw/search/?q=transport"]

/-- Helper for `urlOrigin`: split a URL at the first `://`. -/
def splitSchemeAux : List Char → List Char → Option (List Char × List Char)
  | [], _ => none
  | ':' :: '/' :: '/' :: rest, acc => some (acc.reverse, rest)
  | c :: cs, acc => splitSchemeAux cs (c :: acc)

/-- The `f"{p.scheme}://{p.netloc}"` prefix `urlparse` yields for the fixed
scheme-qualified page URLS the scraper fetches. -/
def urlOrigin (u : String) : String :=
  match splitSchemeAux u.data [] with
  | some (scheme, rest) => ⟨scheme⟩ ++ "://" ++ ⟨rest.takeWhile (fun c => c ≠ '/')⟩
  | none => u

/-- Resolve a relative link against the page origin, as the
slash-test branch does. -/
def resolveLink (baseUrl link : String) : String :=
  match link.data with
  | '/' :: _ => urlOrigin baseUrl ++ link
  | _ => link

/-- `NewsScraper._body`: a failing body fetch is caught and yields the empty
string. -/
def body (fetchBody : String → Except Unit String) (url : String) : String :=
  match fetchBody url with
  | .ok b => b
  | .error _ => ""

/-- One canonical record for one article block of one page: title from the
heading (default `No title`), link from the anchor (default the page URL,
resolved if relative), body text fetched per article, date `now`. -/
def articleRecord (fetchBody : String → Except Unit String) (now : ℚ)
    (baseUrl : String) (art : Article) : Record :=
  let title := (art.h2.map pyStrip).getD "No title"
  let link := resolveLink baseUrl (art.href.getD baseUrl)
  let text := pyStrip (title ++ ". " ++ body fetchBody link)
  { source := "news", id := link, text := some text, date := now, url := link,
    title := title, username := "N/A", user_location := "N/A",
    language := LanguageDetector.detect text, sentiment := none }

/-- One page with its own `try`: a failing page fetch contributes nothing;
otherwise the first `max_articles` article blocks are emitted in order. -/
def perPage (fetchPage : String → Except Unit (List Article))
    (fetchBody : String → Except Unit String) (now : ℚ) (max_articles : ℕ)
    (baseUrl : String) : List Record :=
  match fetchPage baseUrl with
  | .error _ => []
  | .ok arts =>
    (arts.take max_articles).foldl
      (fun acc art => acc ++ [articleRecord fetchBody now baseUrl art]) []

/-- `NewsScraper.collect`: iterate the fixed page URLS; note there is no time
window parameter at all. -/
def collect (fetchPage : String → Except Unit (List Article))
    (fetchBody : String → Except Unit String) (now : ℚ) (max_articles : ℕ) : List Record :=
  URLS.foldl (fun acc u => acc ++ perPage fetchPage fetchBody now max_articles u) []

end NewsScraper

namespace DataCollector

/-- `DataCollector.collect_all`: Reddit, then RSS, then news scrape, in that
fixed order, concatenated. -/
def collect_all (creds : Option Unit)
    (search : String → ℕ → Except Unit (List RedditCollector.Post))
    (feedOf : String → Except Unit (List RSSCollector.Entry))
    (fetchPage : String → Except Unit (List NewsScraper.Article))
    (fetchBody : String → Except Unit String)
    (now start_date end_date : ℚ)
    (max_reddit max_rss max_news : ℕ) : List Record :=
  let reddit_data := RedditCollector.collect creds search start_date end_date max_reddit
  let rss_data := RSSCollector.collect feedOf now start_date end_date max_rss
  let news_data := NewsScraper.collect fetchPage fetchBody now max_news
  reddit_data ++ rss_data ++ news_data

end DataCollector

namespace SentimentAnalyzer

/-- `SentimentAnalyzer.analyze` with the two scorers abstracted:
`polarity` is `TextBlob(text).sentiment.polarity` and `compound` is
the compound field of `sia.polarity_scores(text)`; an `Except.error` is an exception the
`try` block catches.  `none` input models a non-string argument failing the
`isinstance` check. -/
def analyze (polarity compound : String → Except Unit ℚ) : Option String → String
  | none => "neutral"
  | some text =>
    if pyStrip text = "" then "neutral"
    else if LanguageDetector.detect text = "en" ∨ LanguageDetector.detect text = "fr" then
      match polarity text with
      | .ok p => if p > mkRat 2 10 then "positive"
                 else if p < - mkRat 2 10 then "negative" else "neutral"
      | .error _ => "neutral"
    else
      match compound text with
      | .ok c => if c > mkRat 5 100 then "positive"
                 else if c < - mkRat 5 100 then "negative" else "neutral"
      | .error _ => "neutral"

/-- `SentimentAnalyzer.batch_analyze`: set the `sentiment` of each record to
`analyze` of its `text` field (empty-string default), keeping everything else. -/
def batch_analyze (polarity compound : String → Except Unit ℚ)
    (items : List Record) : List Record :=
  items.map fun item =>
    { item with sentiment := some (analyze polarity compound (some (item.text.getD ""))) }

end SentimentAnalyzer


/-- The dedup keys the environment offers to the Reddit variant in one run:
for every keyword, every returned post contributes `(reddit, post id)` and
each of its kept comments `(reddit_comment, comment id)`, before any window
filtering.  Used to state when the source "supplies stable identifiers". -/
def suppliedRedditKeys (search : String → ℕ → Except Unit (List RedditCollector.Post))
    (m : ℕ) : List (String × String) :=
  RedditCollector.KEYWORDS.flatMap fun kw =>
    match search kw m with
    | .error _ => []
    | .ok subs => subs.flatMap fun sub =>
        ("reddit", sub.id) ::
          (RedditCollector.keptComments sub).map (fun c => ("reddit_comment", c.id))

/-- The dedup keys the environment offers to the RSS variant in one run: for
every endpoint, every processed entry contributes `(rss, link or endpoint)`,
before any window filtering. -/
def suppliedRssKeys (feedOf : String → Except Unit (List RSSCollector.Entry))
    (m : ℕ) : List (String × String) :=
  (RSSCollector.KEYWORDS.map RSSCollector.searchUrl ++ RSSCollector.DIRECT_FEEDS).flatMap fun u =>
    match feedOf u with
    | .error _ => []
    | .ok entries => (entries.take m).map (fun en => ("rss", en.link.getD u))

/-- Fixture: a Reddit post with no comments, created at time 5. -/
def post1 : RedditCollector.Post :=
  ⟨"p1", "Kigali bus fare rises", none, mkRat 5 1, "/r/x/p1", "alice", []⟩

/-- Fixture: a comment created at time 5. -/
def comment1 : RedditCollector.Comment := ⟨"c1", "Nice route", mkRat 5 1, "bob"⟩

/-- Fixture: a Reddit post with one kept comment, created at time 5. -/
def post2 : RedditCollector.Post :=
  ⟨"p2", "RURA fare notice", none, mkRat 5 1, "/r/x/p2", "carol", [comment1]⟩

/-- Fixture: a search environment that returns the same post for every
keyword, so the same stable identifier is reachable through every search. -/
def searchDup : String → ℕ → Except Unit (List RedditCollector.Post) :=
  fun _ _ => .ok [post1]

/-- Fixture: a search environment that succeeds for one keyword only. -/
def searchOne : String → ℕ → Except Unit (List RedditCollector.Post) :=
  fun kw _ => if kw = "Kigali bus" then .ok [post2] else .error ()

/-- Fixture: a Reddit post created at time 100, outside the window `[0, 1]`. -/
def latePost : RedditCollector.Post :=
  ⟨"pl", "Old fare story", none, mkRat 100 1, "/r/x/pl", "dan", []⟩

/-- Fixture: a dated feed entry published at time 100, outside `[0, 1]`. -/
def lateEntry : RSSCollector.Entry :=
  ⟨some "Old news", none, some "https://l", none, some (mkRat 100 1)⟩

/-- Fixture: a dated feed entry published at time 3. -/
def datedEntry : RSSCollector.Entry := ⟨none, none, none, none, some (mkRat 3 1)⟩

/-- Fixture: linkless, undated feed entries with distinct titles. -/
def enNoLink1 : RSSCollector.Entry := ⟨some "A", none, none, none, none⟩

/-- Fixture: second linkless, undated feed entry. -/
def enNoLink2 : RSSCollector.Entry := ⟨some "B", none, none, none, none⟩

/-- Fixture: an article block with a heading and a relative link. -/
def art1 : NewsScraper.Article := ⟨some "Fares", some "/story"⟩

/-- Fixture: an article block with a heading and no link. -/
def art2 : NewsScraper.Article := ⟨some "T", none⟩

/-- Fixture: the record the news variant emits for `art2` on its first page
when every body fetch fails and `now = 0`. -/
def newsRec2 : Record :=
  NewsScraper.articleRecord (fun _ => .error ()) (mkRat 0 1)
    "https://www.newtimes.co.rw/search/node/transport" art2

/-- Fixture: a minimal canonical record with empty text and no sentiment. -/
def rec9 : Record :=
  ⟨"rss", "i", some "", mkRat 0 1, "u", "t", "a", "N/A", "en", none⟩

section Helpers

variable {α β : Type}

/-- A for-loop that appends a block per element equals the flat map of the
blocks, after the initial accumulator. -/
theorem foldl_append_eq_flatMap (l : List α) (f : α → List β) (init : List β) :
    l.foldl (fun acc x => acc ++ f x) init = init ++ l.flatMap f := by
  induction l generalizing init with
  | nil => simp
  | cons a l ih => simp [ih, List.append_assoc]

/-- A for-loop with a skip condition equals a filter followed by a map, after
the initial accumulator. -/
theorem foldl_skip_eq_filterMap (l : List α) (q : α → Bool) (g : α → β) (init : List β) :
    l.foldl (fun acc x => if q x then acc else acc ++ [g x]) init
      = init ++ (l.filter (fun x => !q x)).map g := by
  induction l generalizing init with
  | nil => simp
  | cons a l ih =>
    by_cases h : q a <;> simp [h, ih, List.append_assoc]

/-- Pointwise sublists lift through `flatMap`. -/
theorem flatMap_sublist_flatMap {l : List α} {f g : α → List β}
    (h : ∀ a ∈ l, (f a).Sublist (g a)) : (l.flatMap f).Sublist (l.flatMap g) := by
  induction l with
  | nil => simp
  | cons a l ih =>
    simp only [List.flatMap_cons]
    exact (h a (by simp)).append (ih fun x hx => h x (List.mem_cons_of_mem _ hx))

/-- Flat map of singletons is a map. -/
theorem flatMap_singleton_eq_map (l : List α) (g : α → β) :
    (l.flatMap fun a => [g a]) = l.map g := by
  induction l with
  | nil => rfl
  | cons a l ih => simp [ih]

end Helpers

namespace RedditCollector

/-- With credentials present, `collect` is the flat map of the per-keyword
units. -/
theorem collect_some_eq (search : String → ℕ → Except Unit (List Post))
    (s e : ℚ) (m : ℕ) :
    collect (some ()) search s e m = KEYWORDS.flatMap (perKeyword search s e m) := by
  simp only [collect]
  rw [foldl_append_eq_flatMap, List.nil_append]

/-- A successful keyword search contributes the flat map of its processed
posts. -/
theorem perKeyword_ok_eq (search : String → ℕ → Except Unit (List Post))
    (s e : ℚ) (m : ℕ) (kw : String) (subs : List Post) (h : search kw m = .ok subs) :
    perKeyword search s e m kw = subs.flatMap (processPost s e) := by
  simp only [perKeyword, h]
  rw [foldl_append_eq_flatMap, List.nil_append]

/-- Every record the Reddit variant emits still has no sentiment. -/
theorem sentiment_none_of_mem_collect (creds : Option Unit)
    (search : String → ℕ → Except Unit (List Post)) (s e : ℚ) (m : ℕ)
    (r : Record) (hr : r ∈ collect creds search s e m) : r.sentiment = none := by
  cases creds with
  | none => simp [collect] at hr
  | some u =>
    rw [collect_some_eq] at hr
    obtain ⟨kw, -, hr⟩ := List.mem_flatMap.1 hr
    cases hsr : search kw m with
    | error _ => simp only [perKeyword, hsr] at hr; simp at hr
    | ok subs =>
      rw [perKeyword_ok_eq search s e m kw subs hsr] at hr
      obtain ⟨sub, -, hr⟩ := List.mem_flatMap.1 hr
      unfold processPost at hr
      split at hr
      · rcases List.mem_cons.1 hr with h | h
        · rw [h]; rfl
        · obtain ⟨c, -, h⟩ := List.mem_map.1 h
          rw [← h]; rfl
      · simp at hr

end RedditCollector

namespace RSSCollector

/-- The entry loop equals a filter of the first `max_items` entries followed
by the record map. -/
theorem parseEntries_eq (now : ℚ) (url : String) (entries : List Entry)
    (m : ℕ) (s e : ℚ) :
    parseEntries now url entries m s e
      = ((entries.take m).filter (fun en => !skipEntry s e en)).map (entryRecord now url) := by
  unfold parseEntries
  rw [foldl_skip_eq_filterMap]; rfl

/-- `collect` is the flat map of `parse` over the search endpoints followed by
the direct feeds. -/
theorem rss_collect_eq (feedOf : String → Except Unit (List Entry))
    (now s e : ℚ) (m : ℕ) :
    collect feedOf now s e m
      = (KEYWORDS.map searchUrl ++ DIRECT_FEEDS).flatMap
          (fun u => parse feedOf now u m s e) := by
  unfold collect
  rw [foldl_append_eq_flatMap, foldl_append_eq_flatMap]
  rw [List.nil_append, List.flatMap_append, List.flatMap_map]

/-- Every record the RSS variant emits still has no sentiment, and its `id`
equals its `url` with source `rss`. -/
theorem rss_shape_of_mem_collect (feedOf : String → Except Unit (List Entry))
    (now s e : ℚ) (m : ℕ) (r : Record) (hr : r ∈ collect feedOf now s e m) :
    r.sentiment = none ∧ r.id = r.url ∧ r.source = "rss" := by
  rw [rss_collect_eq] at hr
  obtain ⟨u, -, hr⟩ := List.mem_flatMap.1 hr
  cases hf : feedOf u with
  | error _ => simp only [parse, hf] at hr; simp at hr
  | ok entries =>
    simp only [parse, hf] at hr
    rw [parseEntries_eq] at hr
    obtain ⟨en, -, h⟩ := List.mem_map.1 hr
    rw [← h]; exact ⟨rfl, rfl, rfl⟩

end RSSCollector

namespace NewsScraper

/-- `collect` is the flat map of the per-page units over the fixed page list. -/
theorem news_collect_eq (fetchPage : String → Except Unit (List Article))
    (fetchBody : String → Except Unit String) (now : ℚ) (m : ℕ) :
    collect fetchPage fetchBody now m = URLS.flatMap (perPage fetchPage fetchBody now m) := by
  unfold collect
  rw [foldl_append_eq_flatMap]; rfl

/-- A successfully fetched page contributes the record map of its first
`max_articles` article blocks. -/
theorem perPage_ok_eq (fetchPage : String → Except Unit (List Article))
    (fetchBody : String → Except Unit String) (now : ℚ) (m : ℕ) (u : String)
    (arts : List Article) (h : fetchPage u = .ok arts) :
    perPage fetchPage fetchBody now m u = (arts.take m).map (articleRecord fetchBody now u) := by
  simp only [perPage, h]
  rw [foldl_append_eq_flatMap, List.nil_append, flatMap_singleton_eq_map]

/-- Every record the news variant emits has no sentiment, date `now`, `id`
equal to `url` and source `news`. -/
theorem news_shape_of_mem_collect (fetchPage : String → Except Unit (List Article))
    (fetchBody : String → Except Unit String) (now : ℚ) (m : ℕ)
    (r : Record) (hr : r ∈ collect fetchPage fetchBody now m) :
    r.sentiment = none ∧ r.date = now ∧ r.id = r.url ∧ r.source = "news" := by
  rw [news_collect_eq] at hr
  obtain ⟨u, -, hr⟩ := List.mem_flatMap.1 hr
  cases hf : fetchPage u with
  | error _ => simp only [perPage, hf] at hr; simp at hr
  | ok arts =>
    rw [perPage_ok_eq fetchPage fetchBody now m u arts hf] at hr
    obtain ⟨art, -, h⟩ := List.mem_map.1 hr
    rw [← h]
    exact ⟨rfl, rfl, rfl, rfl⟩

end NewsScraper

/-- C1: for every string `t`, `detect t` is exactly one of `en`, `fr`, `rw`;
it is `rw` precisely when the lower-cased whitespace-split word set of `t`
meets the Kinyarwanda keyword set (so any Kinyarwanda keyword forces `rw`,
regardless of French keywords); absent that, it is `fr` precisely when the
word set shares at least two words with the French keyword set, else `en`;
and `detect` is deterministic. -/
theorem C1_detect_spec (t : String) :
    (LanguageDetector.detect t = "en" ∨ LanguageDetector.detect t = "fr" ∨
       LanguageDetector.detect t = "rw") ∧
    (LanguageDetector.detect t = "rw" ↔ ∃ w ∈ pyWords t, w ∈ LanguageDetector.RW_WORDS) ∧
    ((¬ ∃ w ∈ pyWords t, w ∈ LanguageDetector.RW_WORDS) →
      (LanguageDetector.detect t = "fr" ↔
        2 ≤ ((pyWords t).dedup ∩ LanguageDetector.FR_WORDS).length)) ∧
    (∀ t₂ : String, t = t₂ → LanguageDetector.detect t = LanguageDetector.detect t₂) := by
  have hrw : ((pyWords t).dedup ∩ LanguageDetector.RW_WORDS ≠ []) ↔
      (∃ w ∈ pyWords t, w ∈ LanguageDetector.RW_WORDS) := by
    constructor
    · intro h
      obtain ⟨a, ha⟩ := List.exists_mem_of_ne_nil _ h
      rw [List.mem_inter_iff] at ha
      exact ⟨a, List.mem_dedup.1 ha.1, ha.2⟩
    · rintro ⟨w, hw1, hw2⟩
      exact List.ne_nil_of_mem (List.mem_inter_iff.2 ⟨List.mem_dedup.2 hw1, hw2⟩)
  refine ⟨?_, ?_, ?_, ?_⟩
  · unfold LanguageDetector.detect
    split_ifs with h1 h2
    · right; right; rfl
    · right; left; rfl
    · left; rfl
  · unfold LanguageDetector.detect
    split_ifs with h1 h2
    · exact iff_of_true rfl (hrw.1 h1)
    · exact iff_of_false (by decide) (fun hx => h1 (hrw.2 hx))
    · exact iff_of_false (by decide) (fun hx => h1 (hrw.2 hx))
  · intro hno
    have h1 : ¬((pyWords t).dedup ∩ LanguageDetector.RW_WORDS ≠ []) :=
      fun h => hno (hrw.1 h)
    unfold LanguageDetector.detect
    rw [if_neg h1]
    split_ifs with h2
    · exact iff_of_true rfl h2
    · exact iff_of_false (by decide) h2
  · intro t₂ ht
    rw [ht]

/-- C1 witness: scenario inputs from the spec, settled through
`C1_detect_spec` with its hypotheses discharged concretely. -/
theorem C1_detect_spec_witness :
    LanguageDetector.detect "Ubus ni byiza cyane" = "rw" ∧
    LanguageDetector.detect "Le bus est très cher" = "fr" :=
  ⟨(C1_detect_spec "Ubus ni byiza cyane").2.1.mpr ⟨"ubus", by decide, by decide⟩,
   ((C1_detect_spec "Le bus est très cher").2.2.1 (by decide)).mpr (by decide)⟩

/-- C2: for nonempty text, with the two scorers abstract: on the `en`/`fr`
path `analyze` is `positive` iff polarity exceeds 0.2, `negative` iff it is
below -0.2, else `neutral`; on the `rw` path the same with the compound score
and 0.05; the model constants `mkRat 2 10` and `mkRat 5 100` are exactly 0.2
and 0.05. -/
theorem C2_thresholds (polarity compound : String → Except Unit ℚ) (t : String)
    (hne : pyStrip t ≠ "") :
    ((LanguageDetector.detect t = "en" ∨ LanguageDetector.detect t = "fr") →
      ∀ p : ℚ, polarity t = .ok p →
        ((SentimentAnalyzer.analyze polarity compound (some t) = "positive" ↔ mkRat 2 10 < p) ∧
         (SentimentAnalyzer.analyze polarity compound (some t) = "negative" ↔ p < - mkRat 2 10) ∧
         (SentimentAnalyzer.analyze polarity compound (some t) = "neutral" ↔
            - mkRat 2 10 ≤ p ∧ p ≤ mkRat 2 10))) ∧
    (LanguageDetector.detect t = "rw" →
      ∀ c : ℚ, compound t = .ok c →
        ((SentimentAnalyzer.analyze polarity compound (some t) = "positive" ↔ mkRat 5 100 < c) ∧
         (SentimentAnalyzer.analyze polarity compound (some t) = "negative" ↔ c < - mkRat 5 100) ∧
         (SentimentAnalyzer.analyze polarity compound (some t) = "neutral" ↔
            - mkRat 5 100 ≤ c ∧ c ≤ mkRat 5 100))) ∧
    (mkRat 2 10 : ℚ) = 0.2 ∧ (mkRat 5 100 : ℚ) = 0.05 := by
  have hb : (- mkRat 2 10 : ℚ) < mkRat 2 10 := by decide
  have hb2 : (- mkRat 5 100 : ℚ) < mkRat 5 100 := by decide
  refine ⟨?_, ?_, ?_, ?_⟩
  · intro hlang p hp
    simp only [SentimentAnalyzer.analyze, if_neg hne, if_pos hlang, hp]
    split_ifs with h1 h2
    · refine ⟨iff_of_true rfl h1, iff_of_false (by decide) (fun hx => ?_),
        iff_of_false (by decide) (fun hx => ?_)⟩
      · linarith
      · rcases hx with ⟨-, hx2⟩; linarith
    · exact ⟨iff_of_false (by decide) (fun hx => h1 hx), iff_of_true rfl h2,
        iff_of_false (by decide) (fun hx => absurd hx.1 (not_le.2 h2))⟩
    · exact ⟨iff_of_false (by decide) (fun hx => h1 hx),
        iff_of_false (by decide) (fun hx => h2 hx),
        iff_of_true rfl ⟨not_lt.1 h2, not_lt.1 h1⟩⟩
  · intro hlang c hc
    have hne2 : ¬(LanguageDetector.detect t = "en" ∨ LanguageDetector.detect t = "fr") := by
      rintro (h | h) <;> rw [hlang] at h <;> exact absurd h (by decide)
    simp only [SentimentAnalyzer.analyze, if_neg hne, if_neg hne2, hc]
    split_ifs with h1 h2
    · refine ⟨iff_of_true rfl h1, iff_of_false (by decide) (fun hx => ?_),
        iff_of_false (by decide) (fun hx => ?_)⟩
      · linarith
      · rcases hx with ⟨-, hx2⟩; linarith
    · exact ⟨iff_of_false (by decide) (fun hx => h1 hx), iff_of_true rfl h2,
        iff_of_false (by decide) (fun hx => absurd hx.1 (not_le.2 h2))⟩
    · exact ⟨iff_of_false (by decide) (fun hx => h1 hx),
        iff_of_false (by decide) (fun hx => h2 hx),
        iff_of_true rfl ⟨not_lt.1 h2, not_lt.1 h1⟩⟩
  · show (mkRat 2 10 : ℚ) = 0.2
    norm_num [mkRat, Rat.normalize]
  · show (mkRat 5 100 : ℚ) = 0.05
    norm_num [mkRat, Rat.normalize]

/-- C2 witness: a polarity of 1/2 on an English text classifies `positive`,
and a compound of 9/10 on a Kinyarwanda text classifies `positive`, via
`C2_thresholds` with its hypotheses discharged concretely. -/
theorem C2_thresholds_witness :
    SentimentAnalyzer.analyze (fun _ => .ok (mkRat 1 2)) (fun _ => .error ())
      (some "good bus") = "positive" ∧
    SentimentAnalyzer.analyze (fun _ => .error ()) (fun _ => .ok (mkRat 9 10))
      (some "ubus") = "positive" :=
  ⟨((C2_thresholds (fun _ => .ok (mkRat 1 2)) (fun _ => .error ()) "good bus"
        (by decide)).1 (Or.inl (by decide)) (mkRat 1 2) rfl).1.mpr (by decide),
   ((C2_thresholds (fun _ => .error ()) (fun _ => .ok (mkRat 9 10)) "ubus"
        (by decide)).2.1 (by decide) (mkRat 9 10) rfl).1.mpr (by decide)⟩

/-- C3: `analyze` always yields one of the three labels; a non-string input
(`none`) yields `neutral`; an empty or whitespace-only string yields `neutral`
for every pair of scorers (so neither scoring path is consulted); and when
both scorers raise, the result is `neutral` rather than a propagated error. -/
theorem C3_analyze_total (polarity compound : String → Except Unit ℚ) (inp : Option String) :
    (SentimentAnalyzer.analyze polarity compound inp = "positive" ∨
     SentimentAnalyzer.analyze polarity compound inp = "neutral" ∨
     SentimentAnalyzer.analyze polarity compound inp = "negative") ∧
    SentimentAnalyzer.analyze polarity compound none = "neutral" ∧
    (∀ t : String, pyStrip t = "" →
      SentimentAnalyzer.analyze polarity compound (some t) = "neutral") ∧
    (∀ t : String, polarity t = .error () → compound t = .error () →
      SentimentAnalyzer.analyze polarity compound (some t) = "neutral") := by
  refine ⟨?_, rfl, ?_, ?_⟩
  · cases inp with
    | none => right; left; rfl
    | some t =>
      simp only [SentimentAnalyzer.analyze]
      split_ifs with h1 h2
      · right; left; rfl
      · cases polarity t with
        | ok p =>
          dsimp only
          split_ifs with h3 h4
          · left; rfl
          · right; right; rfl
          · right; left; rfl
        | error e => right; left; rfl
      · cases compound t with
        | ok c =>
          dsimp only
          split_ifs with h3 h4
          · left; rfl
          · right; right; rfl
          · right; left; rfl
        | error e => right; left; rfl
  · intro t h
    simp only [SentimentAnalyzer.analyze, if_pos h]
  · intro t hp hc
    simp only [SentimentAnalyzer.analyze, hp, hc]
    split_ifs <;> rfl

/-- C3 witness: whitespace-only input and a both-scorers-raise input settle to
`neutral`, via `C3_analyze_total` with its hypotheses discharged concretely. -/
theorem C3_analyze_total_witness :
    SentimentAnalyzer.analyze (fun _ => .error ()) (fun _ => .error ())
      (some " \t ") = "neutral" ∧
    SentimentAnalyzer.analyze (fun _ => .error ()) (fun _ => .error ())
      (some "kaput") = "neutral" :=
  ⟨(C3_analyze_total (fun _ => .error ()) (fun _ => .error ()) none).2.2.1 " \t " (by decide),
   (C3_analyze_total (fun _ => .error ()) (fun _ => .error ()) none).2.2.2 "kaput" rfl rfl⟩

/-- C4: no collector variant propagates a failure: missing credentials make
the Reddit variant return the empty list; with credentials, its output is the
independent concatenation of per-search-term units, and a failing term
contributes nothing while its siblings still contribute; the RSS output is the
independent concatenation of per-endpoint units, a failing endpoint
contributing nothing; the news output is the independent concatenation of
per-page units, a failing page contributing nothing.  Totality for the caller
is inherent: each `collect` is a total function into lists. -/
theorem C4_failure_isolation
    (search : String → ℕ → Except Unit (List RedditCollector.Post))
    (feedOf : String → Except Unit (List RSSCollector.Entry))
    (fetchPage : String → Except Unit (List NewsScraper.Article))
    (fetchBody : String → Except Unit String)
    (now s e : ℚ) (m : ℕ) :
    RedditCollector.collect none search s e m = [] ∧
    RedditCollector.collect (some ()) search s e m
      = RedditCollector.KEYWORDS.flatMap (RedditCollector.perKeyword search s e m) ∧
    (∀ kw, search kw m = .error () → RedditCollector.perKeyword search s e m kw = []) ∧
    (∀ kw subs, search kw m = .ok subs →
      RedditCollector.perKeyword search s e m kw
        = subs.flatMap (RedditCollector.processPost s e)) ∧
    RSSCollector.collect feedOf now s e m
      = (RSSCollector.KEYWORDS.map RSSCollector.searchUrl ++ RSSCollector.DIRECT_FEEDS).flatMap
          (fun u => RSSCollector.parse feedOf now u m s e) ∧
    (∀ u, feedOf u = .error () → RSSCollector.parse feedOf now u m s e = []) ∧
    NewsScraper.collect fetchPage fetchBody now m
      = NewsScraper.URLS.flatMap (NewsScraper.perPage fetchPage fetchBody now m) ∧
    (∀ u, fetchPage u = .error () → NewsScraper.perPage fetchPage fetchBody now m u = []) := by
  refine ⟨rfl, RedditCollector.collect_some_eq search s e m, ?_, ?_,
    RSSCollector.rss_collect_eq feedOf now s e m, ?_,
    NewsScraper.news_collect_eq fetchPage fetchBody now m, ?_⟩
  · intro kw h
    simp only [RedditCollector.perKeyword, h]
  · intro kw subs h
    exact RedditCollector.perKeyword_ok_eq search s e m kw subs h
  · intro u h
    simp only [RSSCollector.parse, h]
  · intro u h
    simp only [NewsScraper.perPage, h]

/-- C4 witness: `C4_failure_isolation` applied at concrete environments, with
each hypothesis discharged: credentials absent gives the empty list, a failing
search term, feed endpoint and page each contribute nothing, and a succeeding
term contributes its processed posts. -/
theorem C4_failure_isolation_witness :
    RedditCollector.collect none searchDup (mkRat 0 1) (mkRat 9 1) 5 = [] ∧
    RedditCollector.perKeyword (fun _ _ => .error ()) (mkRat 0 1) (mkRat 9 1) 5 "Kigali bus" = [] ∧
    RedditCollector.perKeyword searchDup (mkRat 0 1) (mkRat 9 1) 5 "Kigali bus"
      = [post1].flatMap (RedditCollector.processPost (mkRat 0 1) (mkRat 9 1)) ∧
    RSSCollector.parse (fun _ => .error ()) (mkRat 0 1) "u" 5 (mkRat 0 1) (mkRat 9 1) = [] ∧
    NewsScraper.perPage (fun _ => .error ()) (fun _ => .error ()) (mkRat 0 1) 5 "u" = [] :=
  ⟨(C4_failure_isolation searchDup (fun _ => .error ()) (fun _ => .error ())
      (fun _ => .error ()) (mkRat 0 1) (mkRat 0 1) (mkRat 9 1) 5).1,
   (C4_failure_isolation (fun _ _ => .error ()) (fun _ => .error ()) (fun _ => .error ())
      (fun _ => .error ()) (mkRat 0 1) (mkRat 0 1) (mkRat 9 1) 5).2.2.1 "Kigali bus" rfl,
   (C4_failure_isolation searchDup (fun _ => .error ()) (fun _ => .error ())
      (fun _ => .error ()) (mkRat 0 1) (mkRat 0 1) (mkRat 9 1) 5).2.2.2.1 "Kigali bus" [post1] rfl,
   (C4_failure_isolation searchDup (fun _ => .error ()) (fun _ => .error ())
      (fun _ => .error ()) (mkRat 0 1) (mkRat 0 1) (mkRat 9 1) 5).2.2.2.2.2.1 "u" rfl,
   (C4_failure_isolation searchDup (fun _ => .error ()) (fun _ => .error ())
      (fun _ => .error ()) (mkRat 0 1) (mkRat 0 1) (mkRat 9 1) 5).2.2.2.2.2.2.2 "u" rfl⟩

/-- C5 counterexample: with every keyword search returning the same post — a
stable identifier reachable through several searches, exactly the case the
claim covers — one orchestrator run emits seven records sharing the dedup key
`(reddit, p1)`, so pairwise key distinctness fails. -/
theorem C5_key_uniqueness_counterexample :
    ¬ (((DataCollector.collect_all (some ()) searchDup (fun _ => .error ())
          (fun _ => .error ()) (fun _ => .error ())
          (mkRat 0 1) (mkRat 0 1) (mkRat 9 1) 5 5 5).map recKey).Nodup) := by
  decide

/-- C5 amended: the collectors deduplicate nothing, so pairwise distinctness
of `(source, external_id)` holds only when the environment supplies each
stable identifier at most once across the whole run: if the keys offered by
all keyword searches (posts and kept comments) are pairwise distinct then the
Reddit output keys are pairwise distinct, and likewise for the RSS endpoints
and entry links. -/
theorem C5_key_uniqueness_amended :
    (∀ (search : String → ℕ → Except Unit (List RedditCollector.Post)) (s e : ℚ) (m : ℕ),
      (suppliedRedditKeys search m).Nodup →
      ((RedditCollector.collect (some ()) search s e m).map recKey).Nodup) ∧
    (∀ (feedOf : String → Except Unit (List RSSCollector.Entry)) (now s e : ℚ) (m : ℕ),
      (suppliedRssKeys feedOf m).Nodup →
      ((RSSCollector.collect feedOf now s e m).map recKey).Nodup) := by
  constructor
  · intro search s e m hnd
    refine List.Nodup.sublist ?_ hnd
    rw [RedditCollector.collect_some_eq, List.map_flatMap]
    unfold suppliedRedditKeys
    apply flatMap_sublist_flatMap
    intro kw _
    cases hs : search kw m with
    | error u => simp [RedditCollector.perKeyword, hs]
    | ok subs =>
      rw [RedditCollector.perKeyword_ok_eq search s e m kw subs hs, List.map_flatMap]
      apply flatMap_sublist_flatMap
      intro sub _
      unfold RedditCollector.processPost
      split_ifs with hw
      · rw [List.map_cons, List.map_map]
        exact List.Sublist.refl _
      · exact List.nil_sublist _
  · intro feedOf now s e m hnd
    refine List.Nodup.sublist ?_ hnd
    rw [RSSCollector.rss_collect_eq, List.map_flatMap]
    unfold suppliedRssKeys
    apply flatMap_sublist_flatMap
    intro u _
    cases hf : feedOf u with
    | error v => simp [RSSCollector.parse, hf]
    | ok entries =>
      simp only [RSSCollector.parse, hf]
      rw [RSSCollector.parseEntries_eq, List.map_map]
      have hcomp : (recKey ∘ RSSCollector.entryRecord now u)
          = fun en => ("rss", en.link.getD u) := rfl
      rw [hcomp]
      exact List.Sublist.map _ (List.filter_sublist _)

/-- C5 witness: `C5_key_uniqueness_amended` applied at environments supplying
each identifier once, with the distinctness hypotheses discharged concretely. -/
theorem C5_key_uniqueness_amended_witness :
    ((RedditCollector.collect (some ()) searchOne (mkRat 0 1) (mkRat 9 1) 5).map recKey).Nodup ∧
    ((RSSCollector.collect (fun _ => .ok [enNoLink1]) (mkRat 0 1) (mkRat 0 1) (mkRat 9 1) 5).map
      recKey).Nodup :=
  ⟨C5_key_uniqueness_amended.1 searchOne (mkRat 0 1) (mkRat 9 1) 5 (by decide),
   C5_key_uniqueness_amended.2 (fun _ => .ok [enNoLink1]) (mkRat 0 1) (mkRat 0 1)
     (mkRat 9 1) 5 (by decide)⟩

/-- C6: `collect_all` is exactly the Reddit output, then the RSS output, then
the news output for the same arguments, concatenated in that fixed order with
nothing added, dropped, reordered or deduplicated; no record it returns
carries a sentiment value, and the separate `batch_analyze` stage is what
attaches one to every record. -/
theorem C6_collect_all_concat (creds : Option Unit)
    (search : String → ℕ → Except Unit (List RedditCollector.Post))
    (feedOf : String → Except Unit (List RSSCollector.Entry))
    (fetchPage : String → Except Unit (List NewsScraper.Article))
    (fetchBody : String → Except Unit String)
    (now s e : ℚ) (mr mrss mn : ℕ) :
    DataCollector.collect_all creds search feedOf fetchPage fetchBody now s e mr mrss mn
      = RedditCollector.collect creds search s e mr
        ++ RSSCollector.collect feedOf now s e mrss
        ++ NewsScraper.collect fetchPage fetchBody now mn ∧
    (∀ r ∈ DataCollector.collect_all creds search feedOf fetchPage fetchBody now s e mr mrss mn,
      r.sentiment = none) ∧
    (∀ polarity compound : String → Except Unit ℚ,
      ∀ r ∈ SentimentAnalyzer.batch_analyze polarity compound
        (DataCollector.collect_all creds search feedOf fetchPage fetchBody now s e mr mrss mn),
      r.sentiment ≠ none) := by
  have he : DataCollector.collect_all creds search feedOf fetchPage fetchBody now s e mr mrss mn
      = RedditCollector.collect creds search s e mr
        ++ RSSCollector.collect feedOf now s e mrss
        ++ NewsScraper.collect fetchPage fetchBody now mn := rfl
  refine ⟨he, ?_, ?_⟩
  · intro r hr
    rw [he] at hr
    rcases List.mem_append.1 hr with hr2 | hr2
    · rcases List.mem_append.1 hr2 with hr3 | hr3
      · exact RedditCollector.sentiment_none_of_mem_collect creds search s e mr r hr3
      · exact (RSSCollector.rss_shape_of_mem_collect feedOf now s e mrss r hr3).1
    · exact (NewsScraper.news_shape_of_mem_collect fetchPage fetchBody now mn r hr2).1
  · intro polarity compound r hr
    obtain ⟨it, -, h⟩ := List.mem_map.1 hr
    rw [← h]
    simp

/-- C6 witness: `C6_collect_all_concat` applied at a concrete environment
whose only yield is one news record, with the membership hypotheses discharged
concretely: before `batch_analyze` the record has no sentiment, afterwards it
does. -/
theorem C6_collect_all_concat_witness :
    newsRec2.sentiment = none ∧
    ({ newsRec2 with sentiment := some "neutral" } : Record).sentiment ≠ none :=
  ⟨(C6_collect_all_concat none searchDup (fun _ => .error ()) (fun _ => .ok [art2])
      (fun _ => .error ()) (mkRat 0 1) (mkRat 0 1) (mkRat 9 1) 5 5 5).2.1
        newsRec2 (by decide),
   (C6_collect_all_concat none searchDup (fun _ => .error ()) (fun _ => .ok [art2])
      (fun _ => .error ()) (mkRat 0 1) (mkRat 0 1) (mkRat 9 1) 5 5 5).2.2
        (fun _ => .error ()) (fun _ => .error ())
        { newsRec2 with sentiment := some "neutral" } (by decide)⟩

/-- C7: the RSS entry loop is a filter of the first `max_items` entries of the
endpoint followed by record construction, so at most `max_items` records come
from each endpoint; an entry with a parseable date is kept exactly when that
date lies in `[start, end]` and its record carries that date; an undated entry
is never skipped and its record carries the current time. -/
theorem C7_rss_entry_policy (now : ℚ) (u : String) (entries : List RSSCollector.Entry)
    (m : ℕ) (s e : ℚ) :
    RSSCollector.parseEntries now u entries m s e
      = ((entries.take m).filter (fun en => !RSSCollector.skipEntry s e en)).map
          (RSSCollector.entryRecord now u) ∧
    (RSSCollector.parseEntries now u entries m s e).length ≤ m ∧
    (∀ en : RSSCollector.Entry, ∀ p : ℚ, en.pubDate = some p →
      ((RSSCollector.skipEntry s e en = false) ↔ (s ≤ p ∧ p ≤ e)) ∧
      (RSSCollector.entryRecord now u en).date = p) ∧
    (∀ en : RSSCollector.Entry, en.pubDate = none →
      RSSCollector.skipEntry s e en = false ∧ (RSSCollector.entryRecord now u en).date = now) := by
  refine ⟨RSSCollector.parseEntries_eq now u entries m s e, ?_, ?_, ?_⟩
  · rw [RSSCollector.parseEntries_eq, List.length_map]
    exact le_trans (List.length_filter_le _ _) (List.length_take_le m entries)
  · intro en p hp
    constructor
    · simp [RSSCollector.skipEntry, hp]
    · have hd : (RSSCollector.entryRecord now u en).date = en.pubDate.getD now := rfl
      rw [hd, hp]
      rfl
  · intro en hp
    constructor
    · simp [RSSCollector.skipEntry, hp]
    · have hd : (RSSCollector.entryRecord now u en).date = en.pubDate.getD now := rfl
      rw [hd, hp]
      rfl

/-- C7 witness: `C7_rss_entry_policy` applied concretely: a dated entry at
time 3 is kept for the window `[0, 9]` and keeps its own date; an undated
entry is kept and carries the current time 7. -/
theorem C7_rss_entry_policy_witness :
    RSSCollector.skipEntry (mkRat 0 1) (mkRat 9 1) datedEntry = false ∧
    (RSSCollector.entryRecord (mkRat 7 1) "https://f" datedEntry).date = mkRat 3 1 ∧
    RSSCollector.skipEntry (mkRat 0 1) (mkRat 9 1) enNoLink1 = false ∧
    (RSSCollector.entryRecord (mkRat 7 1) "https://f" enNoLink1).date = mkRat 7 1 :=
  ⟨((C7_rss_entry_policy (mkRat 7 1) "https://f" [] 5 (mkRat 0 1) (mkRat 9 1)).2.2.1
      datedEntry (mkRat 3 1) rfl).1.mpr (by decide),
   ((C7_rss_entry_policy (mkRat 7 1) "https://f" [] 5 (mkRat 0 1) (mkRat 9 1)).2.2.1
      datedEntry (mkRat 3 1) rfl).2,
   ((C7_rss_entry_policy (mkRat 7 1) "https://f" [] 5 (mkRat 0 1) (mkRat 9 1)).2.2.2
      enNoLink1 rfl).1,
   ((C7_rss_entry_policy (mkRat 7 1) "https://f" [] 5 (mkRat 0 1) (mkRat 9 1)).2.2.2
      enNoLink1 rfl).2⟩

/-- C8: the news variant takes no window argument (its `collect` has no
`start`/`end` parameters in the embedding, as in the source): its output is
the per-page concatenation, each fetched page contributes at most
`max_articles` records, and every emitted record carries the current time as
its date.  Consequently, for a concrete window `[0, 1]` excluding every item
timestamp (100), the Reddit and RSS variants yield zero records while the news
variant still yields records. -/
theorem C8_news_window_exempt (fetchPage : String → Except Unit (List NewsScraper.Article))
    (fetchBody : String → Except Unit String) (now : ℚ) (m : ℕ) :
    NewsScraper.collect fetchPage fetchBody now m
      = NewsScraper.URLS.flatMap (NewsScraper.perPage fetchPage fetchBody now m) ∧
    (∀ u, (NewsScraper.perPage fetchPage fetchBody now m u).length ≤ m) ∧
    (∀ r ∈ NewsScraper.collect fetchPage fetchBody now m, r.date = now) ∧
    (RedditCollector.collect (some ()) (fun _ _ => .ok [latePost]) (mkRat 0 1) (mkRat 1 1) 5 = [] ∧
     RSSCollector.collect (fun _ => .ok [lateEntry]) (mkRat 0 1) (mkRat 0 1) (mkRat 1 1) 5 = [] ∧
     NewsScraper.collect (fun _ => .ok [art1]) (fun _ => .ok "Fares rose this year")
       (mkRat 0 1) 5 ≠ []) := by
  refine ⟨NewsScraper.news_collect_eq fetchPage fetchBody now m, ?_, ?_, by decide, by decide, by decide⟩
  · intro u
    cases hf : fetchPage u with
    | error v => simp [NewsScraper.perPage, hf]
    | ok arts =>
      rw [NewsScraper.perPage_ok_eq fetchPage fetchBody now m u arts hf, List.length_map]
      exact List.length_take_le m arts
  · intro r hr
    exact (NewsScraper.news_shape_of_mem_collect fetchPage fetchBody now m r hr).2.1

/-- C8 witness: `C8_news_window_exempt` applied at a concrete environment,
with the membership hypothesis discharged: the emitted news record carries the
current time 0 as its date. -/
theorem C8_news_window_exempt_witness : newsRec2.date = mkRat 0 1 :=
  (C8_news_window_exempt (fun _ => .ok [art2]) (fun _ => .error ())
    (mkRat 0 1) 5).2.2.1 newsRec2 (by decide)

/-- C9: `batch_analyze` returns as many records as it was given, and the i-th
output record is exactly the i-th input record with the single field
`sentiment` set to `analyze` of the text of that record alone (empty string when the
text field is absent); every other field is untouched and no other record
influences the result at position i. -/
theorem C9_batch_pointwise (polarity compound : String → Except Unit ℚ)
    (items : List Record) :
    (SentimentAnalyzer.batch_analyze polarity compound items).length = items.length ∧
    (∀ i (h1 : i < (SentimentAnalyzer.batch_analyze polarity compound items).length)
        (h2 : i < items.length),
      (SentimentAnalyzer.batch_analyze polarity compound items).get ⟨i, h1⟩
        = { items.get ⟨i, h2⟩ with
            sentiment := some (SentimentAnalyzer.analyze polarity compound
              (some ((items.get ⟨i, h2⟩).text.getD ""))) }) := by
  refine ⟨List.length_map _ _, ?_⟩
  intro i h1 h2
  unfold SentimentAnalyzer.batch_analyze
  rw [List.get_map]

/-- C9 witness: `C9_batch_pointwise` applied to a one-record list with both
index hypotheses discharged concretely; the empty text classifies `neutral`
and every other field of the record survives. -/
theorem C9_batch_pointwise_witness :
    (SentimentAnalyzer.batch_analyze (fun _ => .error ()) (fun _ => .error ()) [rec9]).get
      ⟨0, by decide⟩ = { rec9 with sentiment := some "neutral" } := by
  rw [(C9_batch_pointwise (fun _ => .error ()) (fun _ => .error ()) [rec9]).2 0
    (by decide) (by decide)]
  decide

/-- C10: every RSS record and every news record has `id` equal to `url` (so
the dedup key degenerates to `(source, url)`); a linkless feed entry falls
back to the endpoint URL as its id, a linkless article block falls back to the
page URL (resolution of the page URL against itself, the identity on the fixed
page URLS, none of which is relative); and two linkless entries from the same
endpoint share the dedup key `(rss, endpoint)`. -/
theorem C10_id_is_url (feedOf : String → Except Unit (List RSSCollector.Entry))
    (fetchPage : String → Except Unit (List NewsScraper.Article))
    (fetchBody : String → Except Unit String) (now s e : ℚ) (m : ℕ) :
    (∀ r ∈ RSSCollector.collect feedOf now s e m, r.id = r.url ∧ r.source = "rss") ∧
    (∀ r ∈ NewsScraper.collect fetchPage fetchBody now m, r.id = r.url ∧ r.source = "news") ∧
    (∀ (u : String) (en : RSSCollector.Entry), en.link = none →
      (RSSCollector.entryRecord now u en).id = u) ∧
    (∀ (u : String) (art : NewsScraper.Article), art.href = none →
      (NewsScraper.articleRecord fetchBody now u art).id = NewsScraper.resolveLink u u) ∧
    (∀ u ∈ NewsScraper.URLS, NewsScraper.resolveLink u u = u) ∧
    ((RSSCollector.parseEntries (mkRat 0 1) "https://f" [enNoLink1, enNoLink2] 5
        (mkRat 0 1) (mkRat 9 1)).map recKey
      = [("rss", "https://f"), ("rss", "https://f")]) := by
  refine ⟨?_, ?_, ?_, ?_, by decide, by decide⟩
  · intro r hr
    exact (RSSCollector.rss_shape_of_mem_collect feedOf now s e m r hr).2
  · intro r hr
    have h := NewsScraper.news_shape_of_mem_collect fetchPage fetchBody now m r hr
    exact ⟨h.2.2.1, h.2.2.2⟩
  · intro u en h
    have hid : (RSSCollector.entryRecord now u en).id = en.link.getD u := rfl
    rw [hid, h]
    rfl
  · intro u art h
    have hid : (NewsScraper.articleRecord fetchBody now u art).id
        = NewsScraper.resolveLink u (art.href.getD u) := rfl
    rw [hid, h]
    rfl

/-- C10 witness: `C10_id_is_url` applied concretely with its hypotheses
discharged: a linkless entry from endpoint `https://feed` gets that endpoint
as its id, and an emitted RSS record has `id = url`. -/
theorem C10_id_is_url_witness :
    (RSSCollector.entryRecord (mkRat 0 1) "https://feed" enNoLink1).id = "https://feed" ∧
    (RSSCollector.entryRecord (mkRat 0 1) "https://www.ktpress.rw/feed/" enNoLink1).id
      = (RSSCollector.entryRecord (mkRat 0 1) "https://www.ktpress.rw/feed/" enNoLink1).url :=
  ⟨(C10_id_is_url (fun _ => .error ()) (fun _ => .error ()) (fun _ => .error ())
      (mkRat 0 1) (mkRat 0 1) (mkRat 9 1) 5).2.2.1 "https://feed" enNoLink1 rfl,
   ((C10_id_is_url (fun _ => .ok [enNoLink1]) (fun _ => .error ()) (fun _ => .error ())
      (mkRat 0 1) (mkRat 0 1) (mkRat 9 1) 5).1
      (RSSCollector.entryRecord (mkRat 0 1) "https://www.ktpress.rw/feed/" enNoLink1)
      (by decide)).1⟩
